import Mathlib

/-!
Verification of the LCOE (Levelized Cost of Electricity) engine of the
`ele-cost` repository: a shallow embedding of `lcoe/evaluate.py` together
with the cost-assembly, timeline and normalization logic of `app.py`,
and theorems about the claims of the specification.

Modelling conventions:
* Python floats are modelled as rationals (`ℚ`); the claims under study are
  about exact discounting arithmetic, not floating-point rounding.
* Python years are integers (`ℤ`).
* Fallible Python code (raising `ZeroDivisionError`, `TypeError`,
  `ValueError`) is modelled with `Except String`.
* Python dictionaries built by insertion with distinct keys are modelled as
  insertion-ordered association lists.
-/

/-- The `CashFlowData` class of `lcoe/evaluate.py`: parallel lists of years
and values, plus an optional stored discount rate (`None` in Python is
`Option.none`). -/
structure CashFlowData where
  years : List ℤ
  values : List ℚ
  discount_rate : Option ℚ
deriving Repr, DecidableEq

/-- The accumulation loop of `CashFlowData.net_present_value`:
`npv += value / (1 + discount_rate) ** (year - present_year)` over the pairs
of `zip(self.years, self.values)`.  A `discount_rate` of `None` raises a
`TypeError` at `1 + discount_rate` as soon as a pair is processed; a rate of
exactly `-1` raises a `ZeroDivisionError` whenever the exponent
`year - present_year` is nonzero (Python: `0.0 ** negative` raises, and
`value / 0.0` raises for a positive exponent). -/
def npvAccum (discount_rate : Option ℚ) (present_year : ℤ) :
    List (ℤ × ℚ) → ℚ → Except String ℚ
  | [], npv => .ok npv
  | (year, value) :: rest, npv =>
    match discount_rate with
    | none => .error "TypeError: unsupported operand type"
    | some r =>
      if 1 + r = 0 ∧ year ≠ present_year then
        .error "ZeroDivisionError: division by zero"
      else
        npvAccum discount_rate present_year rest
          (npv + value / (1 + r) ^ (year - present_year))

/-- `CashFlowData.net_present_value(present_year, external_discount_rate)`:
the external rate, when not `None`, takes precedence over the stored one;
the result accumulates `value / (1 + rate) ** (year - present_year)`
starting from `0.0`. -/
def CashFlowData.net_present_value (cf : CashFlowData) (present_year : ℤ)
    (external_discount_rate : Option ℚ) : Except String ℚ :=
  let discount_rate :=
    match external_discount_rate with
    | some r => some r
    | none => cf.discount_rate
  npvAccum discount_rate present_year (cf.years.zip cf.values) 0

/-- Python's `list(range(start, stop))` over integers. -/
def pyRange (start stop : ℤ) : List ℤ :=
  (List.range (stop - start).toNat).map (fun i : ℕ => start + (i : ℤ))

/-- `create_cash_flow(expense_tuple, discount_rate)` of `lcoe/evaluate.py`:
years are `range(start_year, end_year + 1)` and the value list replicates
`expense_value` once per year. -/
def create_cash_flow (start_year end_year : ℤ) (expense_value : ℚ)
    (discount_rate : Option ℚ) : CashFlowData :=
  let years := pyRange start_year (end_year + 1)
  ⟨years, years.map (fun _ => expense_value), discount_rate⟩

/-- A Python value supplied as expense data to `unroll_cost_item`: a 3-tuple
`(start_year, end_year, expense_value)`, a 4-tuple additionally carrying a
discount rate, a tuple of any other arity (the constructor records that
arity), or a value that is not a tuple at all. -/
inductive ExpenseData where
  | tup3 (start_year end_year : ℤ) (expense_value : ℚ)
  | tup4 (start_year end_year : ℤ) (expense_value discount_rate : ℚ)
  | tupOtherArity (arity : ℕ)
  | nonTuple
deriving Repr, DecidableEq

/-- `create_cost_item(cost_item_name, expense_tuple, discount_rate)`: a
single-entry mapping from the name to the cash flow built by
`create_cash_flow`. -/
def create_cost_item (cost_item_name : String) (start_year end_year : ℤ)
    (expense_value : ℚ) (discount_rate : Option ℚ) : String × CashFlowData :=
  (cost_item_name, create_cash_flow start_year end_year expense_value discount_rate)

/-- `unroll_cost_item(cost_item_name, expense_data)`: a 3-tuple builds a cash
flow with no stored rate, a 4-tuple splits off its last element as the rate,
and anything else raises `ValueError("Invalid format for expense data.")`. -/
def unroll_cost_item (cost_item_name : String) (expense_data : ExpenseData) :
    Except String (String × CashFlowData) :=
  match expense_data with
  | .tup3 s e v => .ok (create_cost_item cost_item_name s e v none)
  | .tup4 s e v r => .ok (create_cost_item cost_item_name s e v (some r))
  | .tupOtherArity _ => .error "Invalid format for expense data."
  | .nonTuple => .error "Invalid format for expense data."

/-- `create_cost_items(cost_items_rolled)`: unroll every entry, accumulating
the resulting mapping in insertion order; the first invalid entry raises. -/
def create_cost_items (cost_items_rolled : List (String × ExpenseData)) :
    Except String (List (String × CashFlowData)) :=
  cost_items_rolled.foldlM
    (fun cost_items entry => do
      let cost_item ← unroll_cost_item entry.1 entry.2
      pure (cost_items ++ [cost_item]))
    []

/-- Python's `x or y` on an optional number: `None` and `0` are falsy, so both
select `y`; any nonzero number selects itself.  This is the resolution used by
`calculate_lcoe` (`cash_flow_data.discount_rate or default_discount_rate`). -/
def truthyOr (x : Option ℚ) (y : ℚ) : ℚ :=
  match x with
  | none => y
  | some v => if v = 0 then y else v

/-- `calculate_lcoe(cost_items, revenue_data, default_discount_rate,
present_year)` of `lcoe/evaluate.py`: resolve the revenue rate with `or`,
discount the revenue, sum each item's NPV at its `or`-resolved rate, and
divide; a zero discounted revenue raises `ZeroDivisionError`. -/
def calculate_lcoe (cost_items : List (String × CashFlowData))
    (revenue_data : CashFlowData) (default_discount_rate : ℚ)
    (present_year : ℤ) : Except String ℚ := do
  let revenue_discount_rate := truthyOr revenue_data.discount_rate default_discount_rate
  let total_discounted_revenue ←
    revenue_data.net_present_value present_year (some revenue_discount_rate)
  let total_discounted_expenses ← cost_items.foldlM
    (fun acc item => do
      let item_discount_rate := truthyOr item.2.discount_rate default_discount_rate
      let v ← item.2.net_present_value present_year (some item_discount_rate)
      pure (acc + v))
    0
  if total_discounted_revenue = 0 then
    .error "ZeroDivisionError: float division by zero"
  else
    .ok (total_discounted_expenses / total_discounted_revenue)

/-- The mathematical net present value of a list of `(year, value)` pairs at
rate `r` and anchor `present_year`:
`Σ value / (1 + r) ^ (year - present_year)`. -/
def npvSum (pairs : List (ℤ × ℚ)) (r : ℚ) (present_year : ℤ) : ℚ :=
  (pairs.map (fun p => p.2 / (1 + r) ^ (p.1 - present_year))).sum

/-- Modelled from the spec: `discount_cash_flows(cost_items,
default_discount_rate, present_year)` is called at `app.py` line 146 but its
definition is not under `src/`.  Per the spec (§4.4), for each cost item it
resolves the effective discount rate — the item's own rate if set,
explicitly, not merely truthy, else the default — computes the item's NPV at
`present_year`, and collects the results into a mapping of name to
discounted present value. -/
def discount_cash_flows (cost_items : List (String × CashFlowData))
    (default_discount_rate : ℚ) (present_year : ℤ) :
    Except String (List (String × ℚ)) :=
  match cost_items with
  | [] => .ok []
  | item :: rest => do
    let rate := item.2.discount_rate.getD default_discount_rate
    let v ← item.2.net_present_value present_year (some rate)
    let tail ← discount_cash_flows rest default_discount_rate present_year
    pure ((item.1, v) :: tail)

/-- The LCOE evaluator contract of the spec (§4.4 and §6), as realised by
`app.py` lines 143-148: `calculate_lcoe` supplies the scalar LCOE and
`discount_cash_flows` the mapping of cost-category name to discounted
present value; the evaluator returns the pair of the two. -/
def evaluateLcoe (cost_items : List (String × CashFlowData))
    (revenue_data : CashFlowData) (default_discount_rate : ℚ)
    (present_year : ℤ) : Except String (ℚ × List (String × ℚ)) := do
  let lcoe ← calculate_lcoe cost_items revenue_data default_discount_rate present_year
  let discounted_costs ← discount_cash_flows cost_items default_discount_rate present_year
  pure (lcoe, discounted_costs)

/-- Python's `int(x)` on a number: truncation toward zero. -/
def pyInt (q : ℚ) : ℤ :=
  if 0 ≤ q then ⌊q⌋ else ⌈q⌉

/-- `PRESENT_YEAR = 1` of `app.py`. -/
def PRESENT_YEAR : ℤ := 1

/-- `HOURS_IN_YEAR = 8760` of `app.py`. -/
def HOURS_IN_YEAR : ℚ := 8760

/-- The three phases of the project timeline, as computed in
`create_pie_chart` (`app.py` lines 113-121) and in `run/execute.py`. -/
structure Timeline where
  construction_start : ℤ
  construction_end : ℤ
  operation_start : ℤ
  operation_end : ℤ
  decommissioning_start : ℤ
  decommissioning_end : ℤ
deriving Repr, DecidableEq

/-- The timeline computation of `create_pie_chart` (`app.py` lines 113-121),
with the anchor year a parameter (`app.py` fixes it to `PRESENT_YEAR`,
`run/execute.py` to its own `present_year`): each phase starts right after
the previous one ends and lasts `int(duration)` years inclusive. -/
def compute_timeline (present_year : ℤ)
    (construction_duration operational_lifetime decommissioning_duration : ℚ) :
    Timeline :=
  let construction_start := present_year
  let construction_end := construction_start + pyInt construction_duration - 1
  let operation_start := construction_end + 1
  let operation_end := operation_start + pyInt operational_lifetime - 1
  let decommissioning_start := operation_end + 1
  let decommissioning_end := decommissioning_start + pyInt decommissioning_duration - 1
  ⟨construction_start, construction_end, operation_start, operation_end,
    decommissioning_start, decommissioning_end⟩

/-- The numeric inputs read by `create_pie_chart` from its `data` dictionary
(`app.py`): percentages are as entered (divided by 100 inside the function). -/
structure AppData where
  discount_rate : ℚ
  power : ℚ
  overnight_cost : ℚ
  capital_cost_contingency : ℚ
  capacity_factor : ℚ
  o_and_m_cost : ℚ
  fuel_cost : ℚ
  decommissioning_cost_factor : ℚ
  construction_duration : ℚ
  operational_lifetime : ℚ
  decommissioning_duration : ℚ
  carbon_cost : ℚ
  carbon_content : ℚ
deriving Repr, DecidableEq

/-- `mwh_per_year = HOURS_IN_YEAR * power * capacity_factor / 100` as
computed in `create_pie_chart` (`app.py` lines 94-95). -/
def mwh_per_year (data : AppData) : ℚ :=
  HOURS_IN_YEAR * data.power * (data.capacity_factor / 100)

/-- The `cost_items_rolled` dictionary built by `create_pie_chart`
(`app.py` lines 86-134): per-category yearly amounts over the computed
timeline phases.  All five categories, `Carbon` included, are inserted
unconditionally. -/
def cost_items_rolled (data : AppData) : List (String × ExpenseData) :=
  let power_kw := data.power * 1000
  let overnight_cost_total := data.overnight_cost * power_kw
  let capital_cost_cgy_abs := data.capital_cost_contingency / 100
  let overnight_cost_w_contingency := overnight_cost_total * (1 + capital_cost_cgy_abs)
  let capital_cost_per_year := overnight_cost_w_contingency / data.construction_duration
  let o_and_m_cost_per_year := data.o_and_m_cost * mwh_per_year data
  let fuel_cost_per_year := data.fuel_cost * mwh_per_year data
  let decommissioning_cost_factor_abs := data.decommissioning_cost_factor / 100
  let decommissioning_cost := decommissioning_cost_factor_abs * overnight_cost_total
  let decommissioning_cost_per_year := decommissioning_cost / data.decommissioning_duration
  let carbon_cost_per_mwh := data.carbon_cost * data.carbon_content
  let carbon_cost_per_year := carbon_cost_per_mwh * mwh_per_year data
  let t := compute_timeline PRESENT_YEAR data.construction_duration
    data.operational_lifetime data.decommissioning_duration
  [("Capital", .tup3 t.construction_start t.construction_end capital_cost_per_year),
   ("O&M", .tup3 t.operation_start t.operation_end o_and_m_cost_per_year),
   ("Fuel", .tup3 t.operation_start t.operation_end fuel_cost_per_year),
   ("Carbon", .tup3 t.operation_start t.operation_end carbon_cost_per_year),
   ("Decommissioning",
     .tup3 t.decommissioning_start t.decommissioning_end decommissioning_cost_per_year)]

/-- The display normalization of `create_pie_chart` (`app.py` lines
150-157): `total = sum(values)` and each share is `v / total * 100`.  With a
nonempty value list and a zero total, the first division raises
`ZeroDivisionError`; an empty list yields an empty share list without any
division. -/
def normalize_shares (vals : List ℚ) : Except String (List ℚ) :=
  if vals.sum = 0 ∧ vals ≠ [] then
    .error "ZeroDivisionError: float division by zero"
  else
    .ok (vals.map (fun v => v / vals.sum * 100))

/-- The `default_values` dictionary of `app.py` (lines 31-45): the documented
default scenario, whose carbon content is `0`. -/
def default_values : AppData :=
  ⟨7, 1137, 3370, 15, 80, 11.6, 9.33, 15, 7, 60, 10, 30, 0⟩

/-! ## Helper lemmas -/

theorem npvSum_nil (r : ℚ) (present_year : ℤ) : npvSum [] r present_year = 0 := rfl

theorem npvSum_cons (p : ℤ × ℚ) (l : List (ℤ × ℚ)) (r : ℚ) (present_year : ℤ) :
    npvSum (p :: l) r present_year =
      p.2 / (1 + r) ^ (p.1 - present_year) + npvSum l r present_year := by
  simp [npvSum]

/-- With a present discount rate other than `-1`, the accumulation loop of
`net_present_value` succeeds and computes the mathematical sum. -/
theorem npvAccum_ok (r : ℚ) (hr : 1 + r ≠ 0) (present_year : ℤ)
    (l : List (ℤ × ℚ)) : ∀ acc : ℚ,
    npvAccum (some r) present_year l acc = .ok (acc + npvSum l r present_year) := by
  induction l with
  | nil => intro acc; simp [npvAccum, npvSum]
  | cons p rest ih =>
    intro acc
    obtain ⟨y, v⟩ := p
    rw [npvAccum, if_neg (fun h => hr h.1), ih, npvSum_cons]
    rw [add_assoc]

/-- With an effective rate other than `-1`, `net_present_value` succeeds and
returns the mathematical sum `npvSum`. -/
theorem net_present_value_some_ok (cf : CashFlowData) (present_year : ℤ)
    (r : ℚ) (hr : 1 + r ≠ 0) :
    cf.net_present_value present_year (some r) =
      .ok (npvSum (cf.years.zip cf.values) r present_year) := by
  unfold CashFlowData.net_present_value
  rw [npvAccum_ok r hr, zero_add]

/-- With a present discount rate, the accumulation loop never takes the
`TypeError` branch reserved for a missing rate. -/
theorem npvAccum_some_ne_typeError (r : ℚ) (present_year : ℤ)
    (l : List (ℤ × ℚ)) : ∀ acc : ℚ,
    npvAccum (some r) present_year l acc ≠ .error "TypeError: unsupported operand type" := by
  induction l with
  | nil => intro acc; simp [npvAccum]
  | cons p rest ih =>
    intro acc
    obtain ⟨y, v⟩ := p
    rw [npvAccum]
    split
    · simp
    · exact ih _

theorem pyRange_length (start stop : ℤ) :
    (pyRange start stop).length = (stop - start).toNat := by
  unfold pyRange
  rw [List.length_map, List.length_range]

theorem pyInt_intCast (n : ℤ) : pyInt (n : ℚ) = n := by
  unfold pyInt
  split <;> simp

/-! ## Claims -/

/-- C4: for every CashFlow and every effective discount rate (other than the
rate `-1`, which the spec declares a fatal upstream input error),
`net_present_value(present_year)` equals the sum over the `(year, value)`
pairs of `value / (1 + rate) ^ (year - present_year)`, the exponent being any
integer; and a CashFlow with empty year/value sequences yields an NPV of
`0`. -/
theorem net_present_value_eq_npvSum (cf : CashFlowData) (present_year : ℤ) (r : ℚ) :
    (1 + r ≠ 0 →
      cf.net_present_value present_year (some r) =
        .ok (npvSum (cf.years.zip cf.values) r present_year)) ∧
    (∀ ext : Option ℚ, cf.years = [] →
      cf.net_present_value present_year ext = .ok 0) := by
  constructor
  · intro hr
    exact net_present_value_some_ok cf present_year r hr
  · intro ext hyears
    unfold CashFlowData.net_present_value
    rcases ext with _ | r
    · rcases h : cf.discount_rate with _ | r <;> simp [hyears, h, npvAccum]
    · simp [hyears, npvAccum]

/-- Witness for C4 on concrete inputs: a single flow of `6` one year into the
future at rate `1` is worth `6 / 2 = 3`, and an empty CashFlow has NPV `0`. -/
theorem net_present_value_eq_npvSum_witness :
    CashFlowData.net_present_value ⟨[2], [6], none⟩ 1 (some 1) =
      .ok (npvSum ([(2 : ℤ)].zip [(6 : ℚ)]) 1 1) ∧
    CashFlowData.net_present_value ⟨[], [], none⟩ 1 none = .ok 0 :=
  ⟨(net_present_value_eq_npvSum ⟨[2], [6], none⟩ 1 1).1 (by norm_num),
   (net_present_value_eq_npvSum ⟨[], [], none⟩ 1 1).2 none rfl⟩

/-- C6: the cost-item builder accepts exactly a 3-tuple — yielding a CashFlow
with no stored rate — or a 4-tuple — yielding a CashFlow whose stored rate is
the fourth element; a tuple of any other arity, or a non-tuple value, raises
the `ValueError("Invalid format for expense data.")` instead of being
coerced. -/
theorem unroll_cost_item_shapes (name : String) :
    (∀ (s e : ℤ) (v : ℚ),
      unroll_cost_item name (.tup3 s e v) = .ok (name, create_cash_flow s e v none) ∧
      (create_cash_flow s e v none).discount_rate = none) ∧
    (∀ (s e : ℤ) (v r : ℚ),
      unroll_cost_item name (.tup4 s e v r) = .ok (name, create_cash_flow s e v (some r)) ∧
      (create_cash_flow s e v (some r)).discount_rate = some r) ∧
    (∀ arity : ℕ,
      unroll_cost_item name (.tupOtherArity arity) = .error "Invalid format for expense data.") ∧
    (unroll_cost_item name .nonTuple = .error "Invalid format for expense data.") :=
  ⟨fun _ _ _ => ⟨rfl, rfl⟩, fun _ _ _ _ => ⟨rfl, rfl⟩, fun _ => rfl, rfl⟩

/-- C5: for positive integer durations `(c, o, d)` and any anchor year `p`,
the computed timeline starts construction at `p`, is gap-free —
`construction.end + 1 = operation.start` and
`operation.end + 1 = decommissioning.start` — and each phase's inclusive
year range contains exactly its stated duration's worth of years. -/
theorem compute_timeline_contiguous (p c o d : ℤ) (t : Timeline)
    (hc : 0 < c) (ho : 0 < o) (hd : 0 < d)
    (ht : t = compute_timeline p (c : ℚ) (o : ℚ) (d : ℚ)) :
    t.construction_start = p ∧
    t.construction_end + 1 = t.operation_start ∧
    t.operation_end + 1 = t.decommissioning_start ∧
    t.construction_end - t.construction_start + 1 = c ∧
    t.operation_end - t.operation_start + 1 = o ∧
    t.decommissioning_end - t.decommissioning_start + 1 = d ∧
    (pyRange t.construction_start (t.construction_end + 1)).length = c.toNat ∧
    (pyRange t.operation_start (t.operation_end + 1)).length = o.toNat ∧
    (pyRange t.decommissioning_start (t.decommissioning_end + 1)).length = d.toNat := by
  subst ht
  refine ⟨?_, ?_, ?_, ?_, ?_, ?_, ?_, ?_, ?_⟩ <;>
    simp only [compute_timeline, pyInt_intCast, pyRange_length] <;>
    omega

/-- Witness for C5: durations `(2, 3, 4)` anchored at year `5`. -/
theorem compute_timeline_contiguous_witness :
    (compute_timeline 5 ((2 : ℤ) : ℚ) ((3 : ℤ) : ℚ) ((4 : ℤ) : ℚ)).construction_start = 5 ∧
    (compute_timeline 5 ((2 : ℤ) : ℚ) ((3 : ℤ) : ℚ) ((4 : ℤ) : ℚ)).construction_end + 1 =
      (compute_timeline 5 ((2 : ℤ) : ℚ) ((3 : ℤ) : ℚ) ((4 : ℤ) : ℚ)).operation_start ∧
    (compute_timeline 5 ((2 : ℤ) : ℚ) ((3 : ℤ) : ℚ) ((4 : ℤ) : ℚ)).operation_end + 1 =
      (compute_timeline 5 ((2 : ℤ) : ℚ) ((3 : ℤ) : ℚ) ((4 : ℤ) : ℚ)).decommissioning_start ∧
    (compute_timeline 5 ((2 : ℤ) : ℚ) ((3 : ℤ) : ℚ) ((4 : ℤ) : ℚ)).construction_end -
      (compute_timeline 5 ((2 : ℤ) : ℚ) ((3 : ℤ) : ℚ) ((4 : ℤ) : ℚ)).construction_start + 1 = 2 ∧
    (compute_timeline 5 ((2 : ℤ) : ℚ) ((3 : ℤ) : ℚ) ((4 : ℤ) : ℚ)).operation_end -
      (compute_timeline 5 ((2 : ℤ) : ℚ) ((3 : ℤ) : ℚ) ((4 : ℤ) : ℚ)).operation_start + 1 = 3 ∧
    (compute_timeline 5 ((2 : ℤ) : ℚ) ((3 : ℤ) : ℚ) ((4 : ℤ) : ℚ)).decommissioning_end -
      (compute_timeline 5 ((2 : ℤ) : ℚ) ((3 : ℤ) : ℚ) ((4 : ℤ) : ℚ)).decommissioning_start + 1 = 4 ∧
    (pyRange (compute_timeline 5 ((2 : ℤ) : ℚ) ((3 : ℤ) : ℚ) ((4 : ℤ) : ℚ)).construction_start
      ((compute_timeline 5 ((2 : ℤ) : ℚ) ((3 : ℤ) : ℚ) ((4 : ℤ) : ℚ)).construction_end + 1)).length =
      (2 : ℤ).toNat ∧
    (pyRange (compute_timeline 5 ((2 : ℤ) : ℚ) ((3 : ℤ) : ℚ) ((4 : ℤ) : ℚ)).operation_start
      ((compute_timeline 5 ((2 : ℤ) : ℚ) ((3 : ℤ) : ℚ) ((4 : ℤ) : ℚ)).operation_end + 1)).length =
      (3 : ℤ).toNat ∧
    (pyRange (compute_timeline 5 ((2 : ℤ) : ℚ) ((3 : ℤ) : ℚ) ((4 : ℤ) : ℚ)).decommissioning_start
      ((compute_timeline 5 ((2 : ℤ) : ℚ) ((3 : ℤ) : ℚ) ((4 : ℤ) : ℚ)).decommissioning_end + 1)).length =
      (4 : ℤ).toNat :=
  compute_timeline_contiguous 5 2 3 4
    (compute_timeline 5 ((2 : ℤ) : ℚ) ((3 : ℤ) : ℚ) ((4 : ℤ) : ℚ))
    (by norm_num) (by norm_num) (by norm_num) rfl

/-- C10: a CashFlow constructed with no stored discount rate and a nonempty
year/value list, evaluated without an external rate, hits the `TypeError`
branch (`1 + None` in Python) rather than returning a number; and whenever
either a stored or an external rate is present, that branch is
unreachable. -/
theorem net_present_value_none_rate (cf : CashFlowData) (present_year : ℤ) :
    (∀ (y : ℤ) (ys : List ℤ) (v : ℚ) (vs : List ℚ),
      cf.discount_rate = none → cf.years = y :: ys → cf.values = v :: vs →
      cf.net_present_value present_year none =
        .error "TypeError: unsupported operand type") ∧
    (∀ (ext : Option ℚ) (r : ℚ),
      (ext = some r ∨ (ext = none ∧ cf.discount_rate = some r)) →
      cf.net_present_value present_year ext ≠
        .error "TypeError: unsupported operand type") := by
  constructor
  · intro y ys v vs hrate hyears hvalues
    unfold CashFlowData.net_present_value
    simp [hrate, hyears, hvalues, npvAccum]
  · rintro ext r (rfl | ⟨rfl, hrate⟩)
    · exact npvAccum_some_ne_typeError r present_year _ 0
    · unfold CashFlowData.net_present_value
      dsimp only
      rw [hrate]
      exact npvAccum_some_ne_typeError r present_year _ 0

/-- Witness for C10: a one-year flow with no rate anywhere raises the
`TypeError`, while the same flow with a stored rate does not. -/
theorem net_present_value_none_rate_witness :
    CashFlowData.net_present_value ⟨[2], [5], none⟩ 1 none =
      .error "TypeError: unsupported operand type" ∧
    CashFlowData.net_present_value ⟨[2], [5], some 0⟩ 1 none ≠
      .error "TypeError: unsupported operand type" :=
  ⟨(net_present_value_none_rate ⟨[2], [5], none⟩ 1).1 2 [] 5 [] rfl rfl rfl,
   (net_present_value_none_rate ⟨[2], [5], some 0⟩ 1).2 none 0 (Or.inr ⟨rfl, rfl⟩)⟩

/-- C1 (code behaviour at the failing input): a cost item over year 2 worth
`100` with an explicit stored rate of `0`, a revenue of `1` MWh in year 2
with no stored rate, a default rate of `1` (100%) and present year 1.
`calculate_lcoe` resolves the item's rate with Python's truthy `or`, so the
explicit `0` is replaced by the default `1`: the item discounts to `50`, the
revenue to `1/2`, and the LCOE is `100`.  Had the explicit `0%` override
been honoured — as the spec-modelled `discount_cash_flows` does in the
second conjunct — the item would stay `100` and the LCOE would be `200`. -/
theorem calculate_lcoe_truthy_zero_override :
    calculate_lcoe [("Capital", ⟨[2], [100], some 0⟩)] ⟨[2], [1], none⟩ 1 1 = .ok 100 ∧
    discount_cash_flows [("Capital", ⟨[2], [100], some 0⟩)] 1 1 = .ok [("Capital", 100)] := by
  constructor
  · norm_num [calculate_lcoe, truthyOr, CashFlowData.net_present_value, npvAccum,
      List.foldlM, Bind.bind, Except.bind, Pure.pure, Except.pure]
  · norm_num [discount_cash_flows, CashFlowData.net_present_value, npvAccum,
      List.mapM, List.mapM.loop, Bind.bind, Except.bind, Pure.pure, Except.pure]

/-- A bind in the `Except` monad yields `ok` exactly when both stages do. -/
theorem except_bind_ok {α β : Type} (x : Except String α)
    (f : α → Except String β) (b : β) :
    (x >>= f) = .ok b ↔ ∃ a, x = .ok a ∧ f a = .ok b := by
  cases x <;> simp [Bind.bind, Except.bind]

/-- C3: whenever the discounted revenue is zero — in particular for a revenue
CashFlow with no years, as produced by an empty operating window —
`calculate_lcoe` fails with an explicit error rather than returning a
number. -/
theorem calculate_lcoe_zero_revenue (cost_items : List (String × CashFlowData))
    (revenue_data : CashFlowData) (default_discount_rate : ℚ) (present_year : ℤ)
    (h : revenue_data.net_present_value present_year
      (some (truthyOr revenue_data.discount_rate default_discount_rate)) = .ok 0) :
    ∃ msg, calculate_lcoe cost_items revenue_data default_discount_rate present_year =
      .error msg := by
  rcases hres : calculate_lcoe cost_items revenue_data default_discount_rate present_year
    with msg | q
  · exact ⟨msg, rfl⟩
  · exfalso
    unfold calculate_lcoe at hres
    dsimp only at hres
    rw [h] at hres
    rw [except_bind_ok] at hres
    obtain ⟨a, ha, hk⟩ := hres
    rw [Except.ok.injEq] at ha
    subst ha
    rw [except_bind_ok] at hk
    obtain ⟨t, htf, hif⟩ := hk
    simp at hif

/-- Witness for C3: an empty revenue series (operating window `start > end`,
here `range(5, 2+1)`) makes the evaluation fail. -/
theorem calculate_lcoe_zero_revenue_witness :
    ∃ msg, calculate_lcoe [("Capital", ⟨[1], [10], none⟩)]
      (create_cash_flow 5 2 1 none) (7 / 100) 1 = .error msg :=
  calculate_lcoe_zero_revenue _ _ _ _ (by
    norm_num [create_cash_flow, pyRange, CashFlowData.net_present_value, npvAccum,
      truthyOr])

/-- Each summand of the share list divides by the same total. -/
theorem sum_map_div_mul (l : List ℚ) (t : ℚ) :
    (l.map (fun v => v / t * 100)).sum = l.sum / t * 100 := by
  induction l with
  | nil => simp
  | cons v rest ih => simp [ih, add_div, add_mul]

/-- C7: for a nonempty family of strictly positive discounted costs the
display shares `v / total * 100` sum to exactly `100` (the embedding works
in `ℚ`, so the floating-point tolerance of the spec is not needed); and when
the total is zero the normalization fails with the division-by-zero error
instead of producing shares. -/
theorem normalize_shares_sum_100 (vals : List ℚ) :
    (vals ≠ [] → (∀ v ∈ vals, 0 < v) →
      ∃ shares, normalize_shares vals = .ok shares ∧ shares.sum = 100) ∧
    (vals.sum = 0 → vals ≠ [] →
      normalize_shares vals = .error "ZeroDivisionError: float division by zero") := by
  constructor
  · intro hne hpos
    have ht : 0 < vals.sum := List.sum_pos vals hpos hne
    refine ⟨vals.map (fun v => v / vals.sum * 100), ?_, ?_⟩
    · unfold normalize_shares
      rw [if_neg (fun hcon => absurd hcon.1 (ne_of_gt ht))]
    · rw [sum_map_div_mul, div_self (ne_of_gt ht), one_mul]
  · intro h0 hne
    unfold normalize_shares
    rw [if_pos ⟨h0, hne⟩]

/-- Witness for C7: the shares of the cost family `{1, 3}` are `25` and `75`,
summing to `100`; the family `{1, -1}` has zero total and fails. -/
theorem normalize_shares_sum_100_witness :
    (∃ shares, normalize_shares [1, 3] = .ok shares ∧ shares.sum = 100) ∧
    normalize_shares [1, -1] = .error "ZeroDivisionError: float division by zero" :=
  ⟨(normalize_shares_sum_100 [1, 3]).1 (by simp)
      (by intro v hv; rcases List.mem_cons.mp hv with rfl | hv2
          · norm_num
          · rcases List.mem_cons.mp hv2 with rfl | hv3
            · norm_num
            · exact absurd hv3 (List.not_mem_nil v)),
   (normalize_shares_sum_100 [1, -1]).2 (by norm_num) (by simp)⟩

/-- C8 fails on the code: at the default inputs of `app.py`, whose carbon
content is `0`, the `"Carbon"` category is nevertheless present in the
cost-item mapping (`cost_items_rolled` inserts it unconditionally), so a
zero-value `"Carbon"` category is introduced. -/
theorem cost_items_rolled_carbon_zero_input :
    default_values.carbon_content = 0 ∧
    "Carbon" ∈ (cost_items_rolled default_values).map Prod.fst := by
  constructor
  · rfl
  · simp [cost_items_rolled]

/-- C8 amended: the `"Carbon"` category is always present in the cost-item
mapping, whatever the carbon inputs; when the carbon-cost or carbon-content
input is zero it is a zero-value category (which still renders in the
chart). -/
theorem cost_items_rolled_always_carbon (data : AppData) :
    "Carbon" ∈ (cost_items_rolled data).map Prod.fst ∧
    (data.carbon_cost * data.carbon_content = 0 →
      ∃ s e : ℤ, ("Carbon", ExpenseData.tup3 s e 0) ∈ cost_items_rolled data) := by
  constructor
  · simp [cost_items_rolled]
  · intro h
    refine ⟨(compute_timeline PRESENT_YEAR data.construction_duration
        data.operational_lifetime data.decommissioning_duration).operation_start,
      (compute_timeline PRESENT_YEAR data.construction_duration
        data.operational_lifetime data.decommissioning_duration).operation_end, ?_⟩
    simp [cost_items_rolled, h]

/-- Witness for the amended C8 at the default inputs, whose carbon content is
zero. -/
theorem cost_items_rolled_always_carbon_witness :
    "Carbon" ∈ (cost_items_rolled default_values).map Prod.fst ∧
    (∃ s e : ℤ, ("Carbon", ExpenseData.tup3 s e 0) ∈ cost_items_rolled default_values) :=
  ⟨(cost_items_rolled_always_carbon default_values).1,
   (cost_items_rolled_always_carbon default_values).2 (by norm_num [default_values])⟩

/-- A positive amount strictly in the future is worth strictly less at the
larger of two positive discount bases. -/
theorem npv_term_lt (v : ℚ) (hv : 0 < v) (a b : ℚ) (ha : 0 < a) (hab : a < b)
    (k : ℤ) (hk : 1 ≤ k) : v / b ^ k < v / a ^ k := by
  obtain ⟨n, rfl⟩ : ∃ n : ℕ, k = (n : ℤ) := ⟨k.toNat, (Int.toNat_of_nonneg (by omega)).symm⟩
  rw [zpow_natCast, zpow_natCast]
  have hn : n ≠ 0 := by omega
  exact div_lt_div_of_pos_left hv (pow_pos ha n) (pow_lt_pow_left₀ hab (le_of_lt ha) hn)

/-- Raising the discount rate strictly lowers the discounted sum of a
nonempty list of strictly positive, strictly future cash flows. -/
theorem npvSum_lt_of_rate_lt (l : List (ℤ × ℚ)) (present_year : ℤ) (r1 r2 : ℚ)
    (hne : l ≠ []) (hpos : ∀ p ∈ l, 0 < p.2) (hfut : ∀ p ∈ l, present_year < p.1)
    (hr1 : -1 < r1) (hr12 : r1 < r2) :
    npvSum l r2 present_year < npvSum l r1 present_year := by
  have ha : (0 : ℚ) < 1 + r1 := by linarith
  have hab : 1 + r1 < 1 + r2 := by linarith
  obtain ⟨p, rest, rfl⟩ := List.exists_cons_of_ne_nil hne
  rw [npvSum_cons, npvSum_cons]
  have hterm : p.2 / (1 + r2) ^ (p.1 - present_year) <
      p.2 / (1 + r1) ^ (p.1 - present_year) :=
    npv_term_lt p.2 (hpos p (List.mem_cons_self p rest)) _ _ ha hab _
      (by have := hfut p (List.mem_cons_self p rest); omega)
  have hrest : npvSum rest r2 present_year ≤ npvSum rest r1 present_year := by
    unfold npvSum
    refine List.sum_le_sum ?_
    intro q hq
    exact le_of_lt (npv_term_lt q.2 (hpos q (List.mem_cons_of_mem p hq)) _ _ ha hab _
      (by have := hfut q (List.mem_cons_of_mem p hq); omega))
  linarith

/-- C9: for a CashFlow with (some) strictly positive values whose years all
lie strictly after the present year, the NPV is strictly decreasing in the
discount rate, over the rates the spec admits as valid input (above
`-100%`): if `rate2 > rate1 > -1` then the NPV at `rate2` is strictly below
the NPV at `rate1`. -/
theorem net_present_value_strict_anti (cf : CashFlowData) (present_year : ℤ)
    (r1 r2 : ℚ)
    (hzip : cf.years.zip cf.values ≠ [])
    (hpos : ∀ p ∈ cf.years.zip cf.values, 0 < p.2)
    (hfut : ∀ p ∈ cf.years.zip cf.values, present_year < p.1)
    (hr1 : -1 < r1) (hr12 : r1 < r2) :
    ∃ npv1 npv2 : ℚ,
      cf.net_present_value present_year (some r1) = .ok npv1 ∧
      cf.net_present_value present_year (some r2) = .ok npv2 ∧
      npv2 < npv1 := by
  have ha : (0 : ℚ) < 1 + r1 := by linarith
  have hb : (0 : ℚ) < 1 + r2 := by linarith
  exact ⟨npvSum (cf.years.zip cf.values) r1 present_year,
    npvSum (cf.years.zip cf.values) r2 present_year,
    net_present_value_some_ok cf present_year r1 ha.ne',
    net_present_value_some_ok cf present_year r2 hb.ne',
    npvSum_lt_of_rate_lt _ present_year r1 r2 hzip hpos hfut hr1 hr12⟩

/-- Witness for C9: a flow of `1` in year 2 seen from year 1 is worth `1` at
rate `0%` and `1/2` at rate `100%`. -/
theorem net_present_value_strict_anti_witness :
    ∃ npv1 npv2 : ℚ,
      CashFlowData.net_present_value ⟨[2], [1], none⟩ 1 (some 0) = .ok npv1 ∧
      CashFlowData.net_present_value ⟨[2], [1], none⟩ 1 (some 1) = .ok npv2 ∧
      npv2 < npv1 :=
  net_present_value_strict_anti ⟨[2], [1], none⟩ 1 0 1
    (by simp)
    (by intro p hp; rw [List.zip_cons_cons, List.zip_nil_right, List.mem_singleton] at hp
        subst hp; norm_num)
    (by intro p hp; rw [List.zip_cons_cons, List.zip_nil_right, List.mem_singleton] at hp
        subst hp; norm_num)
    (by norm_num) (by norm_num)

/-- Binding an `ok` value in the `Except` monad applies the continuation. -/
theorem except_ok_bind {α β : Type} (a : α) (f : α → Except String β) :
    (Except.ok a >>= f : Except String β) = f a := rfl

/-- `pure` in the `Except` monad is `ok`. -/
theorem except_pure_eq {α : Type} (a : α) :
    (pure a : Except String α) = .ok a := rfl

/-- The expense-summing loop of `calculate_lcoe` succeeds and accumulates the
mathematical NPVs at the truthy-resolved rates, provided every resolved rate
differs from `-1`. -/
theorem lcoe_foldlM_ok (default_discount_rate : ℚ) (present_year : ℤ) :
    ∀ items : List (String × CashFlowData),
      (∀ p ∈ items, 1 + truthyOr p.2.discount_rate default_discount_rate ≠ 0) →
      ∀ acc : ℚ,
      items.foldlM
        (fun acc item => do
          let item_discount_rate := truthyOr item.2.discount_rate default_discount_rate
          let v ← item.2.net_present_value present_year (some item_discount_rate)
          pure (acc + v))
        acc =
      .ok (acc + (items.map (fun p => npvSum (p.2.years.zip p.2.values)
        (truthyOr p.2.discount_rate default_discount_rate) present_year)).sum) := by
  intro items
  induction items with
  | nil => intro _ acc; simp [List.foldlM]; rfl
  | cons p rest ih =>
    intro h acc
    have hp : 1 + truthyOr p.2.discount_rate default_discount_rate ≠ 0 :=
      h p (List.mem_cons_self p rest)
    simp only [List.foldlM]
    rw [net_present_value_some_ok _ _ _ hp]
    rw [except_ok_bind, except_pure_eq, except_ok_bind]
    rw [ih (fun q hq => h q (List.mem_cons_of_mem p hq))]
    rw [List.map_cons, List.sum_cons, add_assoc]

/-- `calculate_lcoe` succeeds whenever every truthy-resolved rate differs
from `-1` and the discounted revenue is nonzero, and returns the quotient of
the truthy-discounted expense total by the discounted revenue. -/
theorem calculate_lcoe_ok (cost_items : List (String × CashFlowData))
    (revenue_data : CashFlowData) (default_discount_rate : ℚ) (present_year : ℤ)
    (hitems : ∀ p ∈ cost_items, 1 + truthyOr p.2.discount_rate default_discount_rate ≠ 0)
    (hrev : 1 + truthyOr revenue_data.discount_rate default_discount_rate ≠ 0)
    (hrnz : npvSum (revenue_data.years.zip revenue_data.values)
      (truthyOr revenue_data.discount_rate default_discount_rate) present_year ≠ 0) :
    calculate_lcoe cost_items revenue_data default_discount_rate present_year =
      .ok ((cost_items.map (fun p => npvSum (p.2.years.zip p.2.values)
          (truthyOr p.2.discount_rate default_discount_rate) present_year)).sum /
        npvSum (revenue_data.years.zip revenue_data.values)
          (truthyOr revenue_data.discount_rate default_discount_rate) present_year) := by
  unfold calculate_lcoe
  dsimp only
  rw [net_present_value_some_ok _ _ _ hrev, except_ok_bind,
    lcoe_foldlM_ok default_discount_rate present_year cost_items hitems 0, except_ok_bind,
    if_neg hrnz, zero_add]

/-- The spec-modelled `discount_cash_flows` succeeds whenever every
explicitly resolved rate differs from `-1`, and maps each cost-item name to
its mathematical NPV at that rate. -/
theorem discount_cash_flows_ok (default_discount_rate : ℚ) (present_year : ℤ) :
    ∀ cost_items : List (String × CashFlowData),
      (∀ p ∈ cost_items, 1 + p.2.discount_rate.getD default_discount_rate ≠ 0) →
      discount_cash_flows cost_items default_discount_rate present_year =
        .ok (cost_items.map (fun p => (p.1, npvSum (p.2.years.zip p.2.values)
          (p.2.discount_rate.getD default_discount_rate) present_year))) := by
  intro cost_items
  induction cost_items with
  | nil => intro _; rfl
  | cons p rest ih =>
    intro h
    rw [discount_cash_flows]
    rw [net_present_value_some_ok _ _ _ (h p (List.mem_cons_self p rest)), except_ok_bind,
      ih (fun q hq => h q (List.mem_cons_of_mem p hq)), except_ok_bind]
    rfl

/-- C2: the LCOE evaluator, given the cost items, the revenue series, a
default discount rate and a present year — with every resolved rate above
`-100%` and nonzero discounted revenue — returns a pair: the scalar LCOE
(total discounted cost over discounted revenue) and the mapping from each
cost-category name to that category's discounted present value. -/
theorem evaluateLcoe_pair (cost_items : List (String × CashFlowData))
    (revenue_data : CashFlowData) (default_discount_rate : ℚ) (present_year : ℤ)
    (hitems : ∀ p ∈ cost_items, 1 + truthyOr p.2.discount_rate default_discount_rate ≠ 0)
    (hitems2 : ∀ p ∈ cost_items, 1 + p.2.discount_rate.getD default_discount_rate ≠ 0)
    (hrev : 1 + truthyOr revenue_data.discount_rate default_discount_rate ≠ 0)
    (hrnz : npvSum (revenue_data.years.zip revenue_data.values)
      (truthyOr revenue_data.discount_rate default_discount_rate) present_year ≠ 0) :
    evaluateLcoe cost_items revenue_data default_discount_rate present_year =
      .ok ((cost_items.map (fun p => npvSum (p.2.years.zip p.2.values)
          (truthyOr p.2.discount_rate default_discount_rate) present_year)).sum /
        npvSum (revenue_data.years.zip revenue_data.values)
          (truthyOr revenue_data.discount_rate default_discount_rate) present_year,
        cost_items.map (fun p => (p.1, npvSum (p.2.years.zip p.2.values)
          (p.2.discount_rate.getD default_discount_rate) present_year))) := by
  unfold evaluateLcoe
  rw [calculate_lcoe_ok cost_items revenue_data default_discount_rate present_year
    hitems hrev hrnz, except_ok_bind,
    discount_cash_flows_ok default_discount_rate present_year cost_items hitems2,
    except_ok_bind]
  rfl

/-- Witness for C2: one cost item of `10` at the present year and a revenue
of `4` MWh one year out, at a default rate of `100%`: the pair is
`(LCOE, mapping)` with the single category mapped to its discounted value. -/
theorem evaluateLcoe_pair_witness :
    evaluateLcoe [("Capital", ⟨[1], [10], none⟩)] ⟨[2], [4], none⟩ 1 1 =
      .ok (([("Capital", (⟨[1], [10], none⟩ : CashFlowData))].map
          (fun p => npvSum (p.2.years.zip p.2.values) (truthyOr p.2.discount_rate 1) 1)).sum /
        npvSum (([(2 : ℤ)]).zip [(4 : ℚ)]) (truthyOr none 1) 1,
        [("Capital", (⟨[1], [10], none⟩ : CashFlowData))].map
          (fun p => (p.1, npvSum (p.2.years.zip p.2.values) (p.2.discount_rate.getD 1) 1))) :=
  evaluateLcoe_pair [("Capital", ⟨[1], [10], none⟩)] ⟨[2], [4], none⟩ 1 1
    (by intro p hp; rw [List.mem_singleton] at hp; subst hp; norm_num [truthyOr])
    (by intro p hp; rw [List.mem_singleton] at hp; subst hp; norm_num)
    (by norm_num [truthyOr])
    (by norm_num [truthyOr, npvSum])
